import Mathlib

/-!
Shallow embedding of the `yappiverse/embed` portal's server logic:
the optimized login-route hierarchy resolver (`getHierarchicalData`),
its formatting step (`formatHierarchy`), the fallback-test variant of the
resolver, the login `POST` handler, and the Superset dashboard-id
selection table.  Database reads are modelled as `List.find?` over an
explicit database state; JavaScript truthiness and the `||` / `??`
operators are modelled explicitly where the source relies on them.
-/

namespace Embed

/-- Row of `mst_users` with the fields the routes select.  Nullable columns
(the code null-checks them) are `Option`. -/
structure MstUser where
  id_user : String
  full_name : Option String
  nip : Option String
  email : Option String
  password : Option String
  id_role : Option String
  spv_id : Option String
  id_tenant : Option String
deriving Repr, DecidableEq

/-- Row of `mst_role` with the selected fields.  `access_level` is an
integer column; `role_name` is nullable (the code applies `|| ""`). -/
structure MstRole where
  id_role : String
  access_level : Int
  role_name : Option String
deriving Repr, DecidableEq

/-- Row of `mst_user_mapping` with the selected fields. -/
structure MstUserMapping where
  id_user : String
  is_active : Bool
  id_category : Option String
  id_tenant : Option String
deriving Repr, DecidableEq

/-- Row of `mst_category_telephony` (master database) with the selected
fields. -/
structure MstCategory where
  id_category : String
  is_active : Bool
  service : Option String
  id_tenant : Option String
deriving Repr, DecidableEq

/-- The backing stores the resolver reads: account-side users, roles and
mappings, master-side categories.  `findFirst` is `List.find?`, first
match wins. -/
structure Db where
  users : List MstUser
  roles : List MstRole
  mappings : List MstUserMapping
  categories : List MstCategory
deriving Repr, DecidableEq

/-- JavaScript truthiness of a nullable string: `null`/`undefined` and the
empty string are falsy. -/
def truthy : Option String → Bool
  | some s => !(s == "")
  | none => false

/-- JavaScript `x || d` for a nullable string `x`: the value unless it is
null or empty, otherwise the default. -/
def strOr (x : Option String) (d : String) : String :=
  match x with
  | some s => if s == "" then d else s
  | none => d

/-- JavaScript `String.prototype.includes`: `pat` occurs as a contiguous
substring of `s`. -/
def containsSub (s pat : String) : Bool :=
  (List.range (s.data.length + 1)).any (fun i => pat.data.isPrefixOf (s.data.drop i))

/-- The `findFirst` on `mst_users` keyed by `id_user` that opens both
resolver variants. -/
def findUser (db : Db) (uid : String) : Option MstUser :=
  db.users.find? (fun u => u.id_user == uid)

/-- Role fetch: both resolver variants guard the query with the truthiness
of `user.id_role` and look the role up by `id_role`. -/
def roleOf (db : Db) (user : MstUser) : Option MstRole :=
  if truthy user.id_role then db.roles.find? (fun r => some r.id_role == user.id_role)
  else none

/-- Resolved access level: `role?.access_level ?? 0` in the optimized
resolver (the fallback variant's `|| 0` agrees, since `0 || 0 = 0`). -/
def accessLevelOf (db : Db) (user : MstUser) : Int :=
  ((roleOf db user).map MstRole.access_level).getD 0

/-- Active-mapping fetch: `findFirst` on `mst_user_mapping` with
`id_user = userId` and `is_active: true`. -/
def mappingOf (db : Db) (uid : String) : Option MstUserMapping :=
  db.mappings.find? (fun m => m.id_user == uid && m.is_active)

/-- Category fetch, guarded by the truthiness of `mapping?.id_category`,
on the master store with `is_active: true`. -/
def categoryOf (db : Db) (mapping : Option MstUserMapping) : Option MstCategory :=
  match mapping with
  | some m =>
    if truthy m.id_category then
      db.categories.find? (fun c => some c.id_category == m.id_category && c.is_active)
    else none
  | none => none

/-- Supervisor fetch, guarded by the truthiness of `user.spv_id`, keyed by
`id_user = user.spv_id`. -/
def supervisorOf (db : Db) (user : MstUser) : Option MstUser :=
  if truthy user.spv_id then db.users.find? (fun u => some u.id_user == user.spv_id)
  else none

/-- Result record of the optimized resolver (login route variant). -/
structure HierarchicalData where
  fullName : String
  tenantId : String
  service : String
  categoryId : String
  koordinatorId : String
  tlId : String
  agentId : String
  accessLevel : Int
deriving Repr, DecidableEq

/-- Tag for each kind of database read the optimized resolver can issue;
the resolver returns the trace of reads it performed. -/
inductive Lookup where
  | userQ
  | roleQ
  | mappingQ
  | categoryQ
  | supervisorQ
deriving Repr, DecidableEq

/-- The optimized `getHierarchicalData` of the login route: throws on a
missing user or a falsy `full_name` (`if (!user.full_name) throw` — JS
truthiness, so both null and the empty string throw); early-returns for
access level 4 with only `agentId` populated; otherwise reads mapping,
category and supervisor and computes the hierarchy fields.  The second
component is the trace of database reads performed after the initial
user read. -/
def getHierarchicalData (db : Db) (userId : String) :
    Except String (HierarchicalData × List Lookup) :=
  match findUser db userId with
  | none => .error "User not found"
  | some user =>
    if !truthy user.full_name then .error "User full_name is null"
    else
      let fullName := (user.full_name).getD ""
      let roleTrace : List Lookup := if truthy user.id_role then [.roleQ] else []
      let accessLevel := accessLevelOf db user
      if accessLevel == 4 then
        .ok ({ fullName, tenantId := "0", service := "0", categoryId := "0",
               koordinatorId := "0", tlId := "0", agentId := user.id_user, accessLevel },
             Lookup.userQ :: roleTrace)
      else
        let mapping := mappingOf db userId
        let category := categoryOf db mapping
        let catTrace : List Lookup :=
          match mapping with
          | some m => if truthy m.id_category then [.categoryQ] else []
          | none => []
        let supervisor1 := supervisorOf db user
        let supTrace : List Lookup := if truthy user.spv_id then [.supervisorQ] else []
        let tenantId :=
          ((mapping.bind MstUserMapping.id_tenant) <|>
            (category.bind MstCategory.id_tenant) <|> user.id_tenant).getD "0"
        let service := (category.bind MstCategory.service).getD "0"
        let categoryId := ((category.map MstCategory.id_category)).getD "0"
        let tlId := if accessLevel == 3 then user.id_user else "0"
        let koordinatorId :=
          if accessLevel == 3 then ((supervisor1.map MstUser.id_user)).getD "0"
          else if accessLevel == 2 then user.id_user
          else "0"
        .ok ({ fullName, tenantId, service, categoryId, koordinatorId,
               tlId, agentId := "0", accessLevel },
             Lookup.userQ :: (roleTrace ++ [Lookup.mappingQ] ++ catTrace ++ supTrace))

/-- The login route's `formatHierarchy`: template literal with SEVEN
dash-delimited fields, `fullName` first. -/
def formatHierarchy (d : HierarchicalData) : String :=
  d.fullName ++ " - " ++ d.tenantId ++ " - " ++ d.service ++ " - " ++ d.categoryId ++
    " - " ++ d.koordinatorId ++ " - " ++ d.tlId ++ " - " ++ d.agentId

/-- Result record of the fallback-test resolver variant (no `fullName`, no
access level in the result). -/
structure HierarchyResult where
  tenantId : String
  service : String
  categoryId : String
  koordinatorId : String
  tlId : String
  agentId : String
deriving Repr, DecidableEq

/-- The `formatHierarchy` of the fallback-test script: template literal
with SIX dash-delimited fields, no `fullName`. -/
def formatHierarchyFallback (d : HierarchyResult) : String :=
  d.tenantId ++ " - " ++ d.service ++ " - " ++ d.categoryId ++ " - " ++
    d.koordinatorId ++ " - " ++ d.tlId ++ " - " ++ d.agentId

/-- Tenant/service/category triple computed by the fallback-test resolver:
mapping-based resolution when an active mapping exists (category values,
then the mapping's own truthy tenant overriding), otherwise the role-name
heuristics ("tenant" / "super admin" substrings and hardcoded role ids). -/
def fallbackBase (db : Db) (userId : String) (user : MstUser) : String × String × String :=
  let userMapping := mappingOf db userId
  let userRoleName := strOr ((roleOf db user).bind MstRole.role_name) ""
  match userMapping with
  | some m =>
    let fromCat : String × String × String :=
      match categoryOf db userMapping with
      | some cat =>
        (strOr cat.id_tenant "0", strOr cat.service "0", strOr (some cat.id_category) "0")
      | none => ("0", "0", "0")
    if truthy m.id_tenant then ((m.id_tenant).getD "", fromCat.2.1, fromCat.2.2)
    else fromCat
  | none =>
    if containsSub userRoleName.toLower "tenant" || user.id_role == some "ROLE0007" then
      let t :=
        if truthy user.id_tenant then (user.id_tenant).getD ""
        else if user.id_user.startsWith "EXT" then user.id_user
        else "0"
      (t, "ALL", "0")
    else if containsSub userRoleName.toLower "super admin" || user.id_role == some "ROLE001" then
      ("ALL", "ALL", "0")
    else
      (if truthy user.id_tenant then (user.id_tenant).getD "" else "0", "0", "0")

/-- Koordinator/teamlead/agent triple computed by the fallback-test
resolver's access-level branching (initial values all `"0"`): level 4
walks two supervisor hops, level 3 one hop, level 2 places the user as
coordinator, and the default branch places the user heuristically
(`≤ 2` coordinator-tier, otherwise agent-tier). -/
def fallbackPositions (db : Db) (user : MstUser) : String × String × String :=
  let userAccessLevel := accessLevelOf db user
  if userAccessLevel == 4 then
    match supervisorOf db user with
    | some tl =>
      let koord :=
        if truthy tl.spv_id then
          match db.users.find? (fun u => some u.id_user == tl.spv_id) with
          | some k => k.id_user
          | none => "0"
        else "0"
      (koord, tl.id_user, user.id_user)
    | none => ("0", "0", user.id_user)
  else if userAccessLevel == 3 then
    let koord :=
      match supervisorOf db user with
      | some k => k.id_user
      | none => "0"
    (koord, user.id_user, "0")
  else if userAccessLevel == 2 then (user.id_user, "0", "0")
  else if userAccessLevel ≤ 2 then (user.id_user, "0", "0")
  else ("0", "0", user.id_user)

/-- The fallback-test variant of `getHierarchicalData`: only the missing
user throws; mapping-based tenant/service resolution with role-name
heuristics when no mapping exists; access level 4 walks the supervisor
chain two hops; the default branch places the user heuristically. -/
def getHierarchicalDataFallback (db : Db) (userId : String) :
    Except String HierarchyResult :=
  match findUser db userId with
  | none => .error "User not found"
  | some user =>
    let base := fallbackBase db userId user
    let positions := fallbackPositions db user
    .ok { tenantId := base.1, service := base.2.1, categoryId := base.2.2,
          koordinatorId := positions.1, tlId := positions.2.1, agentId := positions.2.2 }

/-- Body of the login request: `{ password, nip, email }`, each possibly
absent. -/
structure LoginRequest where
  password : Option String
  nip : Option String
  email : Option String
deriving Repr, DecidableEq

/-- JSON response of the login route.  `none` in an outer `Option` means
the field is absent from the response object; `Fullname` and `Role` carry
nullable database values, hence the nested `Option`. -/
structure LoginResponse where
  httpStatus : Nat
  status : String
  message : String
  ID : Option String := none
  Fullname : Option (Option String) := none
  Role : Option (Option String) := none
  AccessLevel : Option Int := none
  hierarchical_data : Option String := none
deriving Repr, DecidableEq

/-- The login route's user query: `where: nip ? { nip } : { email }` —
keyed by `nip` when `nip` is truthy, otherwise by `email`. -/
def loginUserLookup (db : Db) (req : LoginRequest) : Option MstUser :=
  if truthy req.nip then db.users.find? (fun u => u.nip == req.nip)
  else db.users.find? (fun u => u.email == req.email)

/-- The optimized login route's `POST` handler.  `cmp` models
`bcrypt.compare`; the `catch` block maps a resolver throw to HTTP 500. -/
def POST (cmp : String → String → Bool) (db : Db) (req : LoginRequest) : LoginResponse :=
  if !truthy req.nip && !truthy req.email then
    { httpStatus := 400, status := "F", message := "NIP atau Email wajib diisi" }
  else if !truthy req.password then
    { httpStatus := 400, status := "F", message := "Password wajib diisi" }
  else
    match loginUserLookup db req with
    | none => { httpStatus := 404, status := "F", message := "User tidak ditemukan" }
    | some user =>
      if !truthy user.password then
        { httpStatus := 400, status := "F", message := "User tidak memiliki password terdaftar" }
      else if !(cmp ((req.password).getD "") ((user.password).getD "")) then
        { httpStatus := 417, status := "F", message := "Password salah!" }
      else
        match getHierarchicalData db user.id_user with
        | .error _ => { httpStatus := 500, status := "F", message := "Internal server error" }
        | .ok (h, _) =>
          if h.accessLevel == 4 then
            { httpStatus := 200, status := "T", message := "Success",
              ID := some user.id_user, Fullname := some user.full_name,
              Role := some user.id_role, AccessLevel := some h.accessLevel }
          else
            { httpStatus := 200, status := "T", message := "Success",
              ID := some user.id_user, Fullname := some user.full_name,
              Role := some user.id_role, AccessLevel := some h.accessLevel,
              hierarchical_data := some (formatHierarchy h) }

/-- The five environment-driven Superset dashboard ids. -/
structure SupersetEnv where
  admin : String
  koor : String
  tl : String
  agent : String
  tenant : String
deriving Repr, DecidableEq

/-- The fixed `dashboards` record of the guest-token endpoints, keyed by
the stringified `level`; keys `"0"` and `"1"` both map to the admin id. -/
def dashboards (env : SupersetEnv) (level : String) : Option String :=
  if level == "0" then some env.admin
  else if level == "1" then some env.admin
  else if level == "2" then some env.koor
  else if level == "3" then some env.tl
  else if level == "4" then some env.agent
  else if level == "5" then some env.tenant
  else none

/-- Selection step `dashboards[level] ?? dashboards["0"]` — the `"0"`
key is always present in the record literal and holds the admin
dashboard id. -/
def selectDashboard (env : SupersetEnv) (level : String) : String :=
  match dashboards env level with
  | some d => d
  | none => env.admin

/-- Greedy left-to-right tokenizer on the three-character separator
`" - "` used by both `formatHierarchy` variants; `acc` accumulates the
current token in reverse. -/
def splitTokens : List Char → List Char → List (List Char)
  | [], acc => [acc.reverse]
  | ' ' :: '-' :: ' ' :: rest, acc => acc.reverse :: splitTokens rest []
  | c :: rest, acc => splitTokens rest (c :: acc)

theorem splitTokens_cons_sep (rest acc : List Char) :
    splitTokens (' ' :: '-' :: ' ' :: rest) acc = acc.reverse :: splitTokens rest [] := rfl

theorem splitTokens_cons_ne (c : Char) (rest acc : List Char) (hc : c ≠ ' ') :
    splitTokens (c :: rest) acc = splitTokens rest (c :: acc) := by
  rw [splitTokens.eq_def]
  split <;> simp_all

/-- A token free of spaces is passed through unsplit. -/
theorem splitTokens_no_space (t : List Char) (h : ∀ c ∈ t, c ≠ ' ') (acc : List Char) :
    splitTokens t acc = [acc.reverse ++ t] := by
  induction t generalizing acc with
  | nil => simp [splitTokens]
  | cons c rest ih =>
    rw [splitTokens_cons_ne c rest acc (h c (by simp))]
    rw [ih (fun x hx => h x (by simp [hx])) (c :: acc)]
    simp

/-- A space-free token followed by the separator is cut off exactly at the
separator. -/
theorem splitTokens_token_sep (t : List Char) (h : ∀ c ∈ t, c ≠ ' ') (rest acc : List Char) :
    splitTokens (t ++ (' ' :: '-' :: ' ' :: rest)) acc =
      (acc.reverse ++ t) :: splitTokens rest [] := by
  induction t generalizing acc with
  | nil => simpa using splitTokens_cons_sep rest acc
  | cons c t2 ih =>
    have hstep : ((c :: t2) ++ (' ' :: '-' :: ' ' :: rest) : List Char) =
        c :: (t2 ++ (' ' :: '-' :: ' ' :: rest)) := rfl
    rw [hstep, splitTokens_cons_ne _ _ _ (h c (by simp))]
    rw [ih (fun x hx => h x (by simp [hx])) (c :: acc)]
    simp

/-- Concrete role rows used by the example database. -/
def exampleRoles : List MstRole :=
  [ { id_role := "R2", access_level := 2, role_name := some "Koordinator" },
    { id_role := "R3", access_level := 3, role_name := some "Team Leader" },
    { id_role := "R4", access_level := 4, role_name := some "Agent" } ]

/-- Concrete user rows: a coordinator `K1`, a team lead `L1` supervised by
`K1`, an agent `A1` supervised by `L1`, a role-less user `Z1`, and a user
`N1` whose `full_name` is null. -/
def exampleUsers : List MstUser :=
  [ { id_user := "K1", full_name := some "Kiki", nip := some "200", email := some "k@x.io",
      password := some "hk", id_role := some "R2", spv_id := none, id_tenant := some "TN1" },
    { id_user := "L1", full_name := some "Lala", nip := some "300", email := some "l@x.io",
      password := some "hl", id_role := some "R3", spv_id := some "K1", id_tenant := some "TN1" },
    { id_user := "A1", full_name := some "Budi", nip := some "400", email := some "a@x.io",
      password := some "ha", id_role := some "R4", spv_id := some "L1", id_tenant := some "TN1" },
    { id_user := "Z1", full_name := some "Citra", nip := some "100", email := none,
      password := some "hz", id_role := none, spv_id := none, id_tenant := none },
    { id_user := "N1", full_name := none, nip := some "500", email := none,
      password := some "hn", id_role := none, spv_id := none, id_tenant := none } ]

/-- Concrete example database: `L1` has an active mapping carrying its own
tenant `TMAP` and pointing at category `CAT1`, which itself carries tenant
`TCAT` and service `SVC`. -/
def exampleDb : Db :=
  { users := exampleUsers,
    roles := exampleRoles,
    mappings := [ { id_user := "L1", is_active := true,
                    id_category := some "CAT1", id_tenant := some "TMAP" } ],
    categories := [ { id_category := "CAT1", is_active := true,
                      service := some "SVC", id_tenant := some "TCAT" } ] }

/-- The user row of `L1` in the example database. -/
def exUserL1 : MstUser :=
  { id_user := "L1", full_name := some "Lala", nip := some "300", email := some "l@x.io",
    password := some "hl", id_role := some "R3", spv_id := some "K1", id_tenant := some "TN1" }

/-- The user row of `K1` in the example database. -/
def exUserK1 : MstUser :=
  { id_user := "K1", full_name := some "Kiki", nip := some "200", email := some "k@x.io",
    password := some "hk", id_role := some "R2", spv_id := none, id_tenant := some "TN1" }

/-- The user row of `A1` in the example database. -/
def exUserA1 : MstUser :=
  { id_user := "A1", full_name := some "Budi", nip := some "400", email := some "a@x.io",
    password := some "ha", id_role := some "R4", spv_id := some "L1", id_tenant := some "TN1" }

/-- The user row of `Z1` in the example database. -/
def exUserZ1 : MstUser :=
  { id_user := "Z1", full_name := some "Citra", nip := some "100", email := none,
    password := some "hz", id_role := none, spv_id := none, id_tenant := none }

/-- The character data of the literal separator. -/
theorem sep_data : " - ".data = [' ', '-', ' '] := by decide

/-- An access level other than the role-less default 0 forces a truthy
`id_role`, hence a role read. -/
theorem truthy_id_role_of_accessLevel (db : Db) (user : MstUser)
    (h : accessLevelOf db user ≠ 0) : truthy user.id_role = true := by
  by_contra hb
  have hr : roleOf db user = none := by
    rw [roleOf, if_neg]
    simpa using hb
  rw [accessLevelOf, hr] at h
  simp at h

/-- Unfolding of the optimized resolver on the non-agent path. -/
theorem getHierarchicalData_shape (db : Db) (uid : String) (user : MstUser)
    (hu : findUser db uid = some user) (hf : truthy user.full_name = true)
    (h4 : accessLevelOf db user ≠ 4) :
    getHierarchicalData db uid =
      .ok ({ fullName := (user.full_name).getD "",
             tenantId := (((mappingOf db uid).bind MstUserMapping.id_tenant) <|>
               ((categoryOf db (mappingOf db uid)).bind MstCategory.id_tenant) <|>
               user.id_tenant).getD "0",
             service := ((categoryOf db (mappingOf db uid)).bind MstCategory.service).getD "0",
             categoryId := ((categoryOf db (mappingOf db uid)).map MstCategory.id_category).getD "0",
             koordinatorId :=
               if accessLevelOf db user == 3 then
                 ((supervisorOf db user).map MstUser.id_user).getD "0"
               else if accessLevelOf db user == 2 then user.id_user
               else "0",
             tlId := if accessLevelOf db user == 3 then user.id_user else "0",
             agentId := "0",
             accessLevel := accessLevelOf db user },
           Lookup.userQ ::
             ((if truthy user.id_role then [Lookup.roleQ] else []) ++ [Lookup.mappingQ] ++
              (match mappingOf db uid with
               | some m => if truthy m.id_category then [Lookup.categoryQ] else []
               | none => []) ++
              (if truthy user.spv_id then [Lookup.supervisorQ] else []))) := by
  have h4b : (accessLevelOf db user == 4) = false := by simpa using h4
  simp only [getHierarchicalData, hu, hf, h4b, Bool.not_true, Bool.false_eq_true, if_false]

/-- C1: for a user whose resolved role access level is 4, the optimized
resolver returns `agentId` equal to the user's own id with every other
hierarchy field at the sentinel `"0"`, and its read trace contains only
the user read and the role read — no mapping, category or supervisor
lookup. -/
theorem C1_agent_fast_path (db : Db) (uid : String) (user : MstUser)
    (hu : findUser db uid = some user) (hf : truthy user.full_name = true)
    (hl : accessLevelOf db user = 4) :
    getHierarchicalData db uid =
      .ok ({ fullName := (user.full_name).getD "", tenantId := "0", service := "0",
             categoryId := "0",
             koordinatorId := "0", tlId := "0", agentId := user.id_user, accessLevel := 4 },
           [Lookup.userQ, Lookup.roleQ]) := by
  have hr : truthy user.id_role = true :=
    truthy_id_role_of_accessLevel db user (by rw [hl]; decide)
  simp [getHierarchicalData, hu, hf, hl, hr]

/-- Witness for C1: the concrete agent `A1` of the example database. -/
theorem C1_agent_fast_path_witness :
    getHierarchicalData exampleDb "A1" =
      .ok ({ fullName := "Budi", tenantId := "0", service := "0", categoryId := "0",
             koordinatorId := "0", tlId := "0", agentId := "A1", accessLevel := 4 },
           [Lookup.userQ, Lookup.roleQ]) :=
  C1_agent_fast_path exampleDb "A1" exUserA1 (by decide) (by decide) (by decide)

/-- C3 counterexample: user `N1` is found by the initial lookup, yet the
optimized resolver still throws, because `N1`'s `full_name` is null — so
"raises iff the initial user lookup finds no record" is false as stated. -/
theorem C3_counterexample :
    findUser exampleDb "N1" =
      some { id_user := "N1", full_name := none, nip := some "500", email := none,
             password := some "hn", id_role := none, spv_id := none, id_tenant := none } ∧
    getHierarchicalData exampleDb "N1" = .error "User full_name is null" := by
  exact ⟨rfl, rfl⟩

/-- C3 (amended): the optimized resolver errors exactly when the initial
user lookup fails or the found user's `full_name` is JS-falsy (null or
the empty string); the fallback-test variant errors exactly when the
user lookup fails.  Missing role, mapping, category or supervisor
records never produce an error: in every other case a complete result is
returned. -/
theorem C3_error_conditions (db : Db) (uid : String) :
    ((∃ e, getHierarchicalData db uid = .error e) ↔
      findUser db uid = none ∨
        ∃ u, findUser db uid = some u ∧ truthy u.full_name = false) ∧
    ((∃ e, getHierarchicalDataFallback db uid = .error e) ↔ findUser db uid = none) := by
  constructor
  · cases hu : findUser db uid with
    | none => simp [getHierarchicalData, hu]
    | some u =>
      cases hf : truthy u.full_name with
      | false => simp [getHierarchicalData, hu, hf]
      | true =>
        constructor
        · rintro ⟨e, he⟩
          simp only [getHierarchicalData, hu, hf, Bool.not_true, Bool.false_eq_true,
            if_false] at he
          split at he <;> simp at he
        · rintro (h | ⟨u2, hu2, hf2⟩)
          · exact absurd h (by simp)
          · injection hu2 with h2
            subst h2
            rw [hf] at hf2
            cases hf2
  · cases hu : findUser db uid with
    | none => simp [getHierarchicalDataFallback, hu]
    | some u => simp [getHierarchicalDataFallback, hu]

/-- Unfolding of the fallback-test resolver once the user is found. -/
theorem getHierarchicalDataFallback_shape (db : Db) (uid : String) (user : MstUser)
    (hu : findUser db uid = some user) :
    getHierarchicalDataFallback db uid = .ok
      { tenantId := (fallbackBase db uid user).1,
        service := (fallbackBase db uid user).2.1,
        categoryId := (fallbackBase db uid user).2.2,
        koordinatorId := (fallbackPositions db user).1,
        tlId := (fallbackPositions db user).2.1,
        agentId := (fallbackPositions db user).2.2 } := by
  simp only [getHierarchicalDataFallback, hu]

/-- Fallback positions at access level 3: team lead is the user, the
coordinator is the supervisor when found, else `"0"`. -/
theorem fallbackPositions_lvl3 (db : Db) (user : MstUser)
    (hl : accessLevelOf db user = 3) :
    fallbackPositions db user =
      (((supervisorOf db user).map MstUser.id_user).getD "0", user.id_user, "0") := by
  cases hsup : supervisorOf db user <;> simp [fallbackPositions, hl, hsup]

/-- Fallback positions at access level 2: the user is the coordinator. -/
theorem fallbackPositions_lvl2 (db : Db) (user : MstUser)
    (hl : accessLevelOf db user = 2) :
    fallbackPositions db user = (user.id_user, "0", "0") := by
  simp [fallbackPositions, hl]

/-- Fallback positions in the default branch with a low access level:
coordinator-tier placement. -/
theorem fallbackPositions_default_low (db : Db) (user : MstUser)
    (h2 : accessLevelOf db user ≠ 2) (h3 : accessLevelOf db user ≠ 3)
    (h4 : accessLevelOf db user ≠ 4) (hle : accessLevelOf db user ≤ 2) :
    fallbackPositions db user = (user.id_user, "0", "0") := by
  have b2 : (accessLevelOf db user == 2) = false := by simpa using h2
  have b3 : (accessLevelOf db user == 3) = false := by simpa using h3
  have b4 : (accessLevelOf db user == 4) = false := by simpa using h4
  simp [fallbackPositions, b2, b3, b4, hle]

/-- Fallback positions in the default branch with a high access level:
agent-tier placement. -/
theorem fallbackPositions_default_high (db : Db) (user : MstUser)
    (h3 : accessLevelOf db user ≠ 3) (h4 : accessLevelOf db user ≠ 4)
    (hgt : ¬ accessLevelOf db user ≤ 2) :
    fallbackPositions db user = ("0", "0", user.id_user) := by
  have h2 : accessLevelOf db user ≠ 2 := by omega
  have b2 : (accessLevelOf db user == 2) = false := by simpa using h2
  have b3 : (accessLevelOf db user == 3) = false := by simpa using h3
  have b4 : (accessLevelOf db user == 4) = false := by simpa using h4
  simp [fallbackPositions, b2, b3, b4, hgt]

/-- C4: at access level 3 both resolver variants set `tlId` to the user's
own id and `koordinatorId` to the supervisor's id when the `spv_id`
reference resolves to an existing record, and leave `koordinatorId` at
the sentinel `"0"` when it does not. -/
theorem C4_team_lead (db : Db) (uid : String) (user : MstUser)
    (hu : findUser db uid = some user) (hf : truthy user.full_name = true)
    (hl : accessLevelOf db user = 3) :
    (∃ d tr, getHierarchicalData db uid = .ok (d, tr) ∧
       d.tlId = user.id_user ∧
       d.koordinatorId = ((supervisorOf db user).map MstUser.id_user).getD "0" ∧
       (∀ sup, supervisorOf db user = some sup → d.koordinatorId = sup.id_user) ∧
       (supervisorOf db user = none → d.koordinatorId = "0")) ∧
    (∃ r, getHierarchicalDataFallback db uid = .ok r ∧
       r.tlId = user.id_user ∧
       r.koordinatorId = ((supervisorOf db user).map MstUser.id_user).getD "0") := by
  have h4 : accessLevelOf db user ≠ 4 := by rw [hl]; decide
  constructor
  · rw [getHierarchicalData_shape db uid user hu hf h4]
    refine ⟨_, _, rfl, ?_, ?_, ?_, ?_⟩
    · simp [hl]
    · simp [hl]
    · intro sup hs
      simp [hl, hs]
    · intro hs
      simp [hl, hs]
  · rw [getHierarchicalDataFallback_shape db uid user hu, fallbackPositions_lvl3 db user hl]
    exact ⟨_, rfl, rfl, rfl⟩

/-- Witness for C4: team lead `L1` whose supervisor reference `K1`
resolves; the optimized resolver reports `tlId = "L1"` and
`koordinatorId = "K1"`. -/
theorem C4_team_lead_witness :
    accessLevelOf exampleDb exUserL1 = 3 ∧
    supervisorOf exampleDb exUserL1 = some exUserK1 ∧
    ∃ d tr, getHierarchicalData exampleDb "L1" = .ok (d, tr) ∧
      d.tlId = "L1" ∧ d.koordinatorId = "K1" := by
  refine ⟨by decide, by decide, ?_⟩
  obtain ⟨⟨d, tr, hok, htl, _, hks, _⟩, _⟩ :=
    C4_team_lead exampleDb "L1" exUserL1 (by decide) (by decide) (by decide)
  exact ⟨d, tr, hok, htl, hks exUserK1 (by decide)⟩

/-- C5: at access level 2 both resolver variants set `koordinatorId` to
the user's own id while `tlId` and `agentId` stay at the sentinel. -/
theorem C5_coordinator (db : Db) (uid : String) (user : MstUser)
    (hu : findUser db uid = some user) (hf : truthy user.full_name = true)
    (hl : accessLevelOf db user = 2) :
    (∃ d tr, getHierarchicalData db uid = .ok (d, tr) ∧
       d.koordinatorId = user.id_user ∧ d.tlId = "0" ∧ d.agentId = "0") ∧
    (∃ r, getHierarchicalDataFallback db uid = .ok r ∧
       r.koordinatorId = user.id_user ∧ r.tlId = "0" ∧ r.agentId = "0") := by
  have h4 : accessLevelOf db user ≠ 4 := by rw [hl]; decide
  constructor
  · rw [getHierarchicalData_shape db uid user hu hf h4]
    refine ⟨_, _, rfl, ?_, ?_, rfl⟩
    · simp [hl]
    · simp [hl]
  · rw [getHierarchicalDataFallback_shape db uid user hu, fallbackPositions_lvl2 db user hl]
    exact ⟨_, rfl, rfl, rfl, rfl⟩

/-- Witness for C5: coordinator `K1` of the example database. -/
theorem C5_coordinator_witness :
    accessLevelOf exampleDb exUserK1 = 2 ∧
    ∃ d tr, getHierarchicalData exampleDb "K1" = .ok (d, tr) ∧
      d.koordinatorId = "K1" ∧ d.tlId = "0" ∧ d.agentId = "0" := by
  refine ⟨by decide, ?_⟩
  obtain ⟨⟨d, tr, hok, hk, htl, ha⟩, _⟩ :=
    C5_coordinator exampleDb "K1" exUserK1 (by decide) (by decide) (by decide)
  exact ⟨d, tr, hok, hk, htl, ha⟩

/-- C6: on the optimized resolver's non-agent path the result's
`tenantId` follows the `??` chain — the active mapping's tenant first
(taking precedence over the category's tenant when both are present),
then the category's tenant, then the user's own tenant column, then the
sentinel `"0"`. -/
theorem C6_tenant_precedence (db : Db) (uid : String) (user : MstUser)
    (hu : findUser db uid = some user) (hf : truthy user.full_name = true)
    (h4 : accessLevelOf db user ≠ 4) :
    (∀ m t c t2, mappingOf db uid = some m → m.id_tenant = some t →
       categoryOf db (mappingOf db uid) = some c → c.id_tenant = some t2 →
       ∃ d tr, getHierarchicalData db uid = .ok (d, tr) ∧ d.tenantId = t) ∧
    ((mappingOf db uid).bind MstUserMapping.id_tenant = none →
     ∀ c t2, categoryOf db (mappingOf db uid) = some c → c.id_tenant = some t2 →
       ∃ d tr, getHierarchicalData db uid = .ok (d, tr) ∧ d.tenantId = t2) ∧
    ((mappingOf db uid).bind MstUserMapping.id_tenant = none →
     (categoryOf db (mappingOf db uid)).bind MstCategory.id_tenant = none →
     ∀ t3, user.id_tenant = some t3 →
       ∃ d tr, getHierarchicalData db uid = .ok (d, tr) ∧ d.tenantId = t3) ∧
    ((mappingOf db uid).bind MstUserMapping.id_tenant = none →
     (categoryOf db (mappingOf db uid)).bind MstCategory.id_tenant = none →
     user.id_tenant = none →
       ∃ d tr, getHierarchicalData db uid = .ok (d, tr) ∧ d.tenantId = "0") := by
  rw [getHierarchicalData_shape db uid user hu hf h4]
  refine ⟨?_, ?_, ?_, ?_⟩
  · intro m t c t2 hm ht hc ht2
    refine ⟨_, _, rfl, ?_⟩
    simp [hm, ht]
  · intro hmt c t2 hc ht2
    refine ⟨_, _, rfl, ?_⟩
    simp [hmt, hc, ht2]
  · intro hmt hct t3 hut
    refine ⟨_, _, rfl, ?_⟩
    simp [hmt, hct, hut]
  · intro hmt hct hut
    refine ⟨_, _, rfl, ?_⟩
    simp [hmt, hct, hut]

/-- Witness for C6: team lead `L1` has a mapping tenant `TMAP` and a
category tenant `TCAT`; the mapping tenant wins. -/
theorem C6_tenant_precedence_witness :
    mappingOf exampleDb "L1" =
      some { id_user := "L1", is_active := true,
             id_category := some "CAT1", id_tenant := some "TMAP" } ∧
    categoryOf exampleDb (mappingOf exampleDb "L1") =
      some { id_category := "CAT1", is_active := true,
             service := some "SVC", id_tenant := some "TCAT" } ∧
    ∃ d tr, getHierarchicalData exampleDb "L1" = .ok (d, tr) ∧ d.tenantId = "TMAP" := by
  refine ⟨by decide, by decide, ?_⟩
  obtain ⟨ha, _, _, _⟩ :=
    C6_tenant_precedence exampleDb "L1" exUserL1 (by decide) (by decide) (by decide)
  exact ha { id_user := "L1", is_active := true, id_category := some "CAT1",
             id_tenant := some "TMAP" } "TMAP"
           { id_category := "CAT1", is_active := true, service := some "SVC",
             id_tenant := some "TCAT" } "TCAT" (by decide) rfl (by decide) rfl

/-- C9 counterexample: role-less user `Z1` resolves to access level 0
(`≤ 2`), yet the optimized resolver's default branch leaves
`koordinatorId` (and every other position field) at `"0"` instead of
placing the user as claimed. -/
theorem C9_counterexample :
    accessLevelOf exampleDb exUserZ1 = 0 ∧
    getHierarchicalData exampleDb "Z1" =
      .ok ({ fullName := "Citra", tenantId := "0", service := "0", categoryId := "0",
             koordinatorId := "0", tlId := "0", agentId := "0", accessLevel := 0 },
           [Lookup.userQ, Lookup.mappingQ]) ∧
    ¬ (HierarchicalData.koordinatorId
        { fullName := "Citra", tenantId := "0", service := "0", categoryId := "0",
          koordinatorId := "0", tlId := "0", agentId := "0", accessLevel := 0 } =
       exUserZ1.id_user) :=
  ⟨rfl, rfl, by decide⟩

/-- C9 (amended): the heuristic placement for access levels outside
{2,3,4} — `≤ 2` placed as coordinator, otherwise as agent — happens only
in the fallback-test variant; the optimized resolver's default branch
leaves `koordinatorId`, `tlId` and `agentId` all at the sentinel `"0"`. -/
theorem C9_default_heuristic (db : Db) (uid : String) (user : MstUser)
    (hu : findUser db uid = some user) (hf : truthy user.full_name = true)
    (h2 : accessLevelOf db user ≠ 2) (h3 : accessLevelOf db user ≠ 3)
    (h4 : accessLevelOf db user ≠ 4) :
    (accessLevelOf db user ≤ 2 →
      ∃ r, getHierarchicalDataFallback db uid = .ok r ∧
        r.koordinatorId = user.id_user ∧ r.tlId = "0" ∧ r.agentId = "0") ∧
    (¬ accessLevelOf db user ≤ 2 →
      ∃ r, getHierarchicalDataFallback db uid = .ok r ∧
        r.agentId = user.id_user ∧ r.koordinatorId = "0" ∧ r.tlId = "0") ∧
    (∃ d tr, getHierarchicalData db uid = .ok (d, tr) ∧
       d.koordinatorId = "0" ∧ d.tlId = "0" ∧ d.agentId = "0") := by
  refine ⟨?_, ?_, ?_⟩
  · intro hle
    rw [getHierarchicalDataFallback_shape db uid user hu,
        fallbackPositions_default_low db user h2 h3 h4 hle]
    exact ⟨_, rfl, rfl, rfl, rfl⟩
  · intro hgt
    rw [getHierarchicalDataFallback_shape db uid user hu,
        fallbackPositions_default_high db user h3 h4 hgt]
    exact ⟨_, rfl, rfl, rfl, rfl⟩
  · rw [getHierarchicalData_shape db uid user hu hf h4]
    have b2 : (accessLevelOf db user == 2) = false := by simpa using h2
    have b3 : (accessLevelOf db user == 3) = false := by simpa using h3
    refine ⟨_, _, rfl, ?_, ?_, rfl⟩
    · simp [b2, b3]
    · simp [b3]

/-- Witness for C9: `Z1` at access level 0 is placed as coordinator by
the fallback-test variant. -/
theorem C9_default_heuristic_witness :
    accessLevelOf exampleDb exUserZ1 = 0 ∧
    (∃ r, getHierarchicalDataFallback exampleDb "Z1" = .ok r ∧
       r.koordinatorId = "Z1" ∧ r.tlId = "0" ∧ r.agentId = "0") := by
  refine ⟨by decide, ?_⟩
  obtain ⟨hlow, _, _⟩ :=
    C9_default_heuristic exampleDb "Z1" exUserZ1 (by decide) (by decide)
      (by decide) (by decide) (by decide)
  exact hlow (by decide)

/-- C7: the login endpoint returns 417 `"Password salah!"` on a failed
hash comparison for an existing user, 404 `"User tidak ditemukan"` when
no user matches the identifier, and 400 whenever the password field is
missing or empty — in which case the response is computed without
consulting the database at all (it is identical for every database
state). -/
theorem C7_auth_errors (cmp : String → String → Bool) (db : Db) (req : LoginRequest) :
    (truthy req.password = false →
      (POST cmp db req).httpStatus = 400 ∧ ∀ db2, POST cmp db2 req = POST cmp db req) ∧
    ((truthy req.nip || truthy req.email) = true → truthy req.password = true →
      loginUserLookup db req = none →
      POST cmp db req =
        { httpStatus := 404, status := "F", message := "User tidak ditemukan" }) ∧
    (∀ user, (truthy req.nip || truthy req.email) = true → truthy req.password = true →
      loginUserLookup db req = some user → truthy user.password = true →
      cmp ((req.password).getD "") ((user.password).getD "") = false →
      POST cmp db req =
        { httpStatus := 417, status := "F", message := "Password salah!" }) := by
  refine ⟨?_, ?_, ?_⟩
  · intro hp
    by_cases hg : (!truthy req.nip && !truthy req.email) = true
    · exact ⟨by simp [POST, hg], fun db2 => by simp [POST, hg]⟩
    · have hg2 : (!truthy req.nip && !truthy req.email) = false := by simpa using hg
      exact ⟨by simp [POST, hg2, hp], fun db2 => by simp [POST, hg2, hp]⟩
  · intro hg hp hu
    have hgb : (!truthy req.nip && !truthy req.email) = false := by
      cases hn : truthy req.nip <;> cases he : truthy req.email <;> simp_all
    simp [POST, hgb, hp, hu]
  · intro user hg hp hu hpw hcmp
    have hgb : (!truthy req.nip && !truthy req.email) = false := by
      cases hn : truthy req.nip <;> cases he : truthy req.email <;> simp_all
    simp [POST, hgb, hp, hu, hpw, hcmp]

/-- Witness for C7: wrong password for agent `A1` gives 417, the unknown
NIP `999` gives 404, and a missing password gives 400. -/
theorem C7_auth_errors_witness :
    POST (fun p h => p == h) exampleDb
        { password := some "pw", nip := some "400", email := none } =
      { httpStatus := 417, status := "F", message := "Password salah!" } ∧
    POST (fun p h => p == h) exampleDb
        { password := some "pw", nip := some "999", email := none } =
      { httpStatus := 404, status := "F", message := "User tidak ditemukan" } ∧
    (POST (fun p h => p == h) exampleDb
        { password := none, nip := some "400", email := none }).httpStatus = 400 := by
  refine ⟨?_, ?_, ?_⟩
  · exact (C7_auth_errors (fun p h => p == h) exampleDb
      { password := some "pw", nip := some "400", email := none }).2.2 exUserA1
      (by decide) (by decide) (by decide) (by decide) (by decide)
  · exact (C7_auth_errors (fun p h => p == h) exampleDb
      { password := some "pw", nip := some "999", email := none }).2.1
      (by decide) (by decide) (by decide)
  · exact ((C7_auth_errors (fun p h => p == h) exampleDb
      { password := none, nip := some "400", email := none }).1 (by decide)).1

/-- C10: on a successful authentication the optimized login route omits
`hierarchical_data` from the response exactly when the resolved access
level is 4 (returning only ID, Fullname, Role, AccessLevel), and includes
the formatted hierarchy string for every other access level. -/
theorem C10_agent_response (cmp : String → String → Bool) (db : Db) (req : LoginRequest)
    (user : MstUser) (d : HierarchicalData) (tr : List Lookup)
    (hg : (truthy req.nip || truthy req.email) = true)
    (hp : truthy req.password = true)
    (hu : loginUserLookup db req = some user)
    (hpw : truthy user.password = true)
    (hcmp : cmp ((req.password).getD "") ((user.password).getD "") = true)
    (hres : getHierarchicalData db user.id_user = .ok (d, tr)) :
    (d.accessLevel = 4 →
      POST cmp db req =
        { httpStatus := 200, status := "T", message := "Success",
          ID := some user.id_user, Fullname := some user.full_name,
          Role := some user.id_role, AccessLevel := some d.accessLevel }) ∧
    (d.accessLevel ≠ 4 →
      POST cmp db req =
        { httpStatus := 200, status := "T", message := "Success",
          ID := some user.id_user, Fullname := some user.full_name,
          Role := some user.id_role, AccessLevel := some d.accessLevel,
          hierarchical_data := some (formatHierarchy d) }) := by
  have hgb : (!truthy req.nip && !truthy req.email) = false := by
    cases hn : truthy req.nip <;> cases he : truthy req.email <;> simp_all
  constructor
  · intro h4
    simp [POST, hgb, hp, hu, hpw, hcmp, hres, h4]
  · intro h4
    have h4b : (d.accessLevel == 4) = false := by simpa using h4
    simp [POST, hgb, hp, hu, hpw, hcmp, hres, h4b]

/-- Witness for C10: agent `A1` logs in and gets no `hierarchical_data`;
team lead `L1` logs in and gets the formatted string. -/
theorem C10_agent_response_witness :
    POST (fun _ _ => true) exampleDb
        { password := some "pw", nip := some "400", email := none } =
      { httpStatus := 200, status := "T", message := "Success",
        ID := some "A1", Fullname := some (some "Budi"), Role := some (some "R4"),
        AccessLevel := some 4, hierarchical_data := none } ∧
    POST (fun _ _ => true) exampleDb
        { password := some "pw", nip := some "300", email := none } =
      { httpStatus := 200, status := "T", message := "Success",
        ID := some "L1", Fullname := some (some "Lala"), Role := some (some "R3"),
        AccessLevel := some 3,
        hierarchical_data := some "Lala - TMAP - SVC - CAT1 - K1 - L1 - 0" } := by
  constructor
  · exact (C10_agent_response (fun _ _ => true) exampleDb
      { password := some "pw", nip := some "400", email := none } exUserA1
      { fullName := "Budi", tenantId := "0", service := "0", categoryId := "0",
        koordinatorId := "0", tlId := "0", agentId := "A1", accessLevel := 4 }
      [Lookup.userQ, Lookup.roleQ]
      (by decide) (by decide) (by decide) (by decide) (by decide) rfl).1 rfl
  · exact (C10_agent_response (fun _ _ => true) exampleDb
      { password := some "pw", nip := some "300", email := none } exUserL1
      { fullName := "Lala", tenantId := "TMAP", service := "SVC", categoryId := "CAT1",
        koordinatorId := "K1", tlId := "L1", agentId := "0", accessLevel := 3 }
      [Lookup.userQ, Lookup.roleQ, Lookup.mappingQ, Lookup.categoryQ, Lookup.supervisorQ]
      (by decide) (by decide) (by decide) (by decide) (by decide) rfl).2 (by decide)

/-- C8: any `level` outside the table keys `"0"`–`"5"` selects the
level-0 (admin) dashboard id; each key inside the table selects the id it
is mapped to. -/
theorem C8_dashboard_selection (env : SupersetEnv) (level : String) :
    (level ≠ "0" → level ≠ "1" → level ≠ "2" → level ≠ "3" → level ≠ "4" → level ≠ "5" →
      selectDashboard env level = env.admin) ∧
    selectDashboard env "0" = env.admin ∧ selectDashboard env "1" = env.admin ∧
    selectDashboard env "2" = env.koor ∧ selectDashboard env "3" = env.tl ∧
    selectDashboard env "4" = env.agent ∧ selectDashboard env "5" = env.tenant := by
  refine ⟨?_, rfl, rfl, rfl, rfl, rfl, rfl⟩
  intro h0 h1 h2 h3 h4 h5
  have b0 : (level == "0") = false := by simpa using h0
  have b1 : (level == "1") = false := by simpa using h1
  have b2 : (level == "2") = false := by simpa using h2
  have b3 : (level == "3") = false := by simpa using h3
  have b4 : (level == "4") = false := by simpa using h4
  have b5 : (level == "5") = false := by simpa using h5
  simp [selectDashboard, dashboards, b0, b1, b2, b3, b4, b5]

/-- Witness for C8: the out-of-table level `"9"` falls back to the admin
dashboard id. -/
theorem C8_dashboard_selection_witness :
    selectDashboard { admin := "DA", koor := "DK", tl := "DT", agent := "DG", tenant := "DN" }
      "9" = "DA" :=
  (C8_dashboard_selection
    { admin := "DA", koor := "DK", tl := "DT", agent := "DG", tenant := "DN" } "9").1
    (by decide) (by decide) (by decide) (by decide) (by decide) (by decide)

/-- Splitting the six-field (test-script) format on the separator returns
exactly the six field values, provided no field contains a space. -/
theorem formatHierarchyFallback_split (d : HierarchyResult)
    (h1 : ∀ c ∈ d.tenantId.data, c ≠ ' ') (h2 : ∀ c ∈ d.service.data, c ≠ ' ')
    (h3 : ∀ c ∈ d.categoryId.data, c ≠ ' ') (h4 : ∀ c ∈ d.koordinatorId.data, c ≠ ' ')
    (h5 : ∀ c ∈ d.tlId.data, c ≠ ' ') (h6 : ∀ c ∈ d.agentId.data, c ≠ ' ') :
    splitTokens (formatHierarchyFallback d).data [] =
      [d.tenantId.data, d.service.data, d.categoryId.data,
       d.koordinatorId.data, d.tlId.data, d.agentId.data] := by
  have hdata : (formatHierarchyFallback d).data =
      d.tenantId.data ++ (' ' :: '-' :: ' ' ::
        (d.service.data ++ (' ' :: '-' :: ' ' ::
          (d.categoryId.data ++ (' ' :: '-' :: ' ' ::
            (d.koordinatorId.data ++ (' ' :: '-' :: ' ' ::
              (d.tlId.data ++ (' ' :: '-' :: ' ' :: d.agentId.data))))))))) := by
    simp [formatHierarchyFallback, String.data_append, sep_data, List.append_assoc]
  rw [hdata, splitTokens_token_sep _ h1, splitTokens_token_sep _ h2,
      splitTokens_token_sep _ h3, splitTokens_token_sep _ h4,
      splitTokens_token_sep _ h5, splitTokens_no_space _ h6]
  simp

/-- Splitting the seven-field (login-route) format on the separator
returns `fullName` followed by the six field values, provided no field
contains a space. -/
theorem formatHierarchy_split (e : HierarchicalData)
    (h0 : ∀ c ∈ e.fullName.data, c ≠ ' ')
    (h1 : ∀ c ∈ e.tenantId.data, c ≠ ' ') (h2 : ∀ c ∈ e.service.data, c ≠ ' ')
    (h3 : ∀ c ∈ e.categoryId.data, c ≠ ' ') (h4 : ∀ c ∈ e.koordinatorId.data, c ≠ ' ')
    (h5 : ∀ c ∈ e.tlId.data, c ≠ ' ') (h6 : ∀ c ∈ e.agentId.data, c ≠ ' ') :
    splitTokens (formatHierarchy e).data [] =
      [e.fullName.data, e.tenantId.data, e.service.data, e.categoryId.data,
       e.koordinatorId.data, e.tlId.data, e.agentId.data] := by
  have hdata : (formatHierarchy e).data =
      e.fullName.data ++ (' ' :: '-' :: ' ' ::
        (e.tenantId.data ++ (' ' :: '-' :: ' ' ::
          (e.service.data ++ (' ' :: '-' :: ' ' ::
            (e.categoryId.data ++ (' ' :: '-' :: ' ' ::
              (e.koordinatorId.data ++ (' ' :: '-' :: ' ' ::
                (e.tlId.data ++ (' ' :: '-' :: ' ' :: e.agentId.data))))))))))) := by
    simp [formatHierarchy, String.data_append, sep_data, List.append_assoc]
  rw [hdata, splitTokens_token_sep _ h0, splitTokens_token_sep _ h1,
      splitTokens_token_sep _ h2, splitTokens_token_sep _ h3,
      splitTokens_token_sep _ h4, splitTokens_token_sep _ h5,
      splitTokens_no_space _ h6]
  simp

/-- C2 counterexample: the login route's own formatting step applied to a
result actually produced by its resolver yields SEVEN dash-delimited
tokens (`fullName` is prepended), not six as claimed. -/
theorem C2_counterexample :
    getHierarchicalData exampleDb "L1" =
      .ok ({ fullName := "Lala", tenantId := "TMAP", service := "SVC", categoryId := "CAT1",
             koordinatorId := "K1", tlId := "L1", agentId := "0", accessLevel := 3 },
           [Lookup.userQ, Lookup.roleQ, Lookup.mappingQ, Lookup.categoryQ,
            Lookup.supervisorQ]) ∧
    (splitTokens (formatHierarchy
        { fullName := "Lala", tenantId := "TMAP", service := "SVC", categoryId := "CAT1",
          koordinatorId := "K1", tlId := "L1", agentId := "0", accessLevel := 3 }).data
      []).length = 7 ∧
    ¬ (splitTokens (formatHierarchy
        { fullName := "Lala", tenantId := "TMAP", service := "SVC", categoryId := "CAT1",
          koordinatorId := "K1", tlId := "L1", agentId := "0", accessLevel := 3 }).data
      []).length = 6 :=
  ⟨rfl, by decide, by decide⟩

/-- C2 (amended): the six-field (test-script) formatter splits back into
exactly the six hierarchy fields, and the login-route formatter splits
into seven tokens with `fullName` first, whenever the fields are
space-free; the tokens are the field values verbatim, hence nonempty
whenever the fields are nonempty. -/
theorem C2_format_tokens :
    (∀ d : HierarchyResult,
      (∀ c ∈ d.tenantId.data, c ≠ ' ') → (∀ c ∈ d.service.data, c ≠ ' ') →
      (∀ c ∈ d.categoryId.data, c ≠ ' ') → (∀ c ∈ d.koordinatorId.data, c ≠ ' ') →
      (∀ c ∈ d.tlId.data, c ≠ ' ') → (∀ c ∈ d.agentId.data, c ≠ ' ') →
      splitTokens (formatHierarchyFallback d).data [] =
        [d.tenantId.data, d.service.data, d.categoryId.data,
         d.koordinatorId.data, d.tlId.data, d.agentId.data] ∧
      (splitTokens (formatHierarchyFallback d).data []).length = 6 ∧
      (d.tenantId ≠ "" → d.service ≠ "" → d.categoryId ≠ "" → d.koordinatorId ≠ "" →
       d.tlId ≠ "" → d.agentId ≠ "" →
       ∀ t ∈ splitTokens (formatHierarchyFallback d).data [], t ≠ [])) ∧
    (∀ e : HierarchicalData,
      (∀ c ∈ e.fullName.data, c ≠ ' ') →
      (∀ c ∈ e.tenantId.data, c ≠ ' ') → (∀ c ∈ e.service.data, c ≠ ' ') →
      (∀ c ∈ e.categoryId.data, c ≠ ' ') → (∀ c ∈ e.koordinatorId.data, c ≠ ' ') →
      (∀ c ∈ e.tlId.data, c ≠ ' ') → (∀ c ∈ e.agentId.data, c ≠ ' ') →
      (splitTokens (formatHierarchy e).data []).length = 7) := by
  constructor
  · intro d h1 h2 h3 h4 h5 h6
    have hsplit := formatHierarchyFallback_split d h1 h2 h3 h4 h5 h6
    refine ⟨hsplit, by rw [hsplit]; rfl, ?_⟩
    intro e1 e2 e3 e4 e5 e6 t ht
    rw [hsplit] at ht
    have conv : ∀ s : String, s ≠ "" → s.data ≠ [] := by
      intro s hs hdata
      exact hs (by cases s; simp_all)
    simp only [List.mem_cons, List.mem_singleton] at ht
    rcases ht with h | h | h | h | h | h | h
    · exact h ▸ conv _ e1
    · exact h ▸ conv _ e2
    · exact h ▸ conv _ e3
    · exact h ▸ conv _ e4
    · exact h ▸ conv _ e5
    · exact h ▸ conv _ e6
    · cases h
  · intro e h0 h1 h2 h3 h4 h5 h6
    rw [formatHierarchy_split e h0 h1 h2 h3 h4 h5 h6]
    rfl

/-- Witness for C2: concrete resolver output fields split back exactly,
six tokens for the test-script format and seven for the login-route
format. -/
theorem C2_format_tokens_witness :
    splitTokens (formatHierarchyFallback
        { tenantId := "TMAP", service := "SVC", categoryId := "CAT1",
          koordinatorId := "K1", tlId := "L1", agentId := "0" }).data [] =
      ["TMAP".data, "SVC".data, "CAT1".data, "K1".data, "L1".data, "0".data] ∧
    (splitTokens (formatHierarchy
        { fullName := "Budi", tenantId := "0", service := "0", categoryId := "0",
          koordinatorId := "0", tlId := "0", agentId := "A1", accessLevel := 4 }).data
      []).length = 7 := by
  constructor
  · exact (C2_format_tokens.1
      { tenantId := "TMAP", service := "SVC", categoryId := "CAT1",
        koordinatorId := "K1", tlId := "L1", agentId := "0" }
      (by decide) (by decide) (by decide) (by decide) (by decide) (by decide)).1
  · exact C2_format_tokens.2
      { fullName := "Budi", tenantId := "0", service := "0", categoryId := "0",
        koordinatorId := "0", tlId := "0", agentId := "A1", accessLevel := 4 }
      (by decide) (by decide) (by decide) (by decide) (by decide) (by decide) (by decide)

end Embed
